import Mathlib

/-!
# Verification of the CDBL Asset Cache Swap & FastFlag Tracking Engine

Shallow embedding of `src/fastflags.py` and `src/assets.py` from the
CDBL repository, together with theorems settling the specification
claims about backup idempotency, ledger tracking, error handling and
batch swap classification.

Modelling conventions:
* Python `dict` objects with string keys and values become
  insertion-ordered association lists (`Dict`); `d[k] = v` updates an
  existing key in place or appends a fresh one, `del d[k]` removes it.
* The two persisted JSON files (`IxpSettings.json` and
  `fastflags_tracking.json`) become fields of an explicit state record
  (`FFState`).  A file that is absent or unparsable is `none`; the
  loaders then return the same defaults the Python code returns.
* Disk-write failure is modelled by the Booleans `ixpWriteOk` and
  `trackingWriteOk`: `save_ixp_settings` / `save_tracking_data` succeed
  and update the state exactly when the corresponding flag is `true`,
  mirroring the `try/except` around the Python writes.  Timestamps
  (`datetime.now().isoformat()`) are passed in as an abstract `now`
  string.
-/

namespace CDBL

/-- A Python string-to-string `dict` as an insertion-ordered association
list.  Keys are unique in every dict the embedded code builds. -/
abbrev Dict := List (String × String)

/-- Python `k in d` key membership. -/
def Dict.hasKey (d : Dict) (k : String) : Bool :=
  d.any (fun p => p.1 = k)

/-- Python `d.get(k)` / `d[k]` lookup on the first matching key. -/
def Dict.get? (d : Dict) (k : String) : Option String :=
  (d.find? (fun p => p.1 = k)).map (fun p => p.2)

/-- Python `d[k] = v`: replace in place when the key exists, append otherwise. -/
def Dict.insert (d : Dict) (k v : String) : Dict :=
  if Dict.hasKey d k then d.map (fun p => if p.1 = k then (k, v) else p)
  else d ++ [(k, v)]

/-- Python `del d[k]`. -/
def Dict.erase (d : Dict) (k : String) : Dict :=
  d.filter (fun p => p.1 ≠ k)

/-- A named-fix sub-record of the tracking ledger
(`{"active": ..., "flag_applied": ...}`). -/
structure Fix where
  active : Bool
  flag_applied : Option String
deriving Repr, DecidableEq

/-- The tracking-ledger document stored in `fastflags_tracking.json`
(see `load_tracking_data` in `src/fastflags.py`). -/
structure Tracking where
  applied_flags : Dict
  last_modified : Option String
  backup : Dict
  backup_created : Option String
  skybox_fix : Option Fix
  no_arms_fix : Option Fix
deriving Repr, DecidableEq

/-- The default document `load_tracking_data` returns when the tracking
file is absent or unreadable. -/
def defaultTracking : Tracking :=
  { applied_flags := []
    last_modified := none
    backup := []
    backup_created := none
    skybox_fix := none
    no_arms_fix := none }

/-- The persistent state touched by the fastflag operations: the live
settings file, the tracking file, and whether writes to each succeed. -/
structure FFState where
  ixp : Option Dict
  trackingFile : Option Tracking
  ixpWriteOk : Bool
  trackingWriteOk : Bool
deriving Repr, DecidableEq

/-- Embeds `load_ixp_settings`: parsed settings, or an empty dict when the file is
absent or unparsable. -/
def load_ixp_settings (s : FFState) : Dict :=
  s.ixp.getD []

/-- Embeds `load_tracking_data`: parsed ledger, or the default document. -/
def load_tracking_data (s : FFState) : Tracking :=
  s.trackingFile.getD defaultTracking

/-- Embeds `save_ixp_settings`: writes the settings file and reports success.
The read-only chmod dance has no observable effect on the modelled
state.  On failure the file keeps its previous content. -/
def save_ixp_settings (s : FFState) (d : Dict) : FFState × Bool :=
  if s.ixpWriteOk then ({ s with ixp := some d }, true) else (s, false)

/-- Embeds `save_tracking_data`: stamps `last_modified` and writes the tracking
file, reporting success.  On failure the file keeps its previous
content. -/
def save_tracking_data (now : String) (s : FFState) (t : Tracking) :
    FFState × Bool :=
  if s.trackingWriteOk then
    ({ s with trackingFile := some { t with last_modified := some now } }, true)
  else (s, false)

/-- Result record of `apply_fastflags`. -/
structure ApplyResult where
  success : Bool
  applied_flags : Nat
  message : String
  errors : List String
deriving Repr, DecidableEq

/-- The `for flag_name, flag_value in fast_flags.items()` loop of
`apply_fastflags`: each pair is written into the live settings and into
the ledger's `applied_flags`. -/
def applyFlagsLoop : Dict → Dict → Dict → Dict × Dict
  | [], cs, af => (cs, af)
  | (k, v) :: rest, cs, af =>
      applyFlagsLoop rest (Dict.insert cs k v) (Dict.insert af k v)

/-- Embeds `apply_fastflags` from `src/fastflags.py`. -/
def apply_fastflags (now : String) (s : FFState) (fast_flags : Dict) :
    ApplyResult × FFState :=
  if fast_flags.isEmpty then
    ({ success := false, applied_flags := 0
       message := "No fastflags provided to apply"
       errors := ["No fastflags provided to apply"] }, s)
  else
    let current_settings := load_ixp_settings s
    let tracking_data := load_tracking_data s
    let tracking_data :=
      if tracking_data.backup.isEmpty then
        if !current_settings.isEmpty then
          { tracking_data with backup := current_settings
                               backup_created := some now }
        else
          { tracking_data with backup := []
                               backup_created := some now }
      else tracking_data
    let (current_settings, applied) :=
      applyFlagsLoop fast_flags current_settings tracking_data.applied_flags
    let tracking_data := { tracking_data with applied_flags := applied }
    let (s, okSettings) := save_ixp_settings s current_settings
    if okSettings then
      let (s, okTracking) := save_tracking_data now s tracking_data
      if okTracking then
        ({ success := true, applied_flags := fast_flags.length
           message := "Successfully applied " ++ toString fast_flags.length
             ++ " fastflags to Roblox"
           errors := [] }, s)
      else
        ({ success := true, applied_flags := fast_flags.length
           message := "Applied " ++ toString fast_flags.length
             ++ " fastflags (tracking failed)"
           errors := ["Warning: Fastflags applied but tracking data could not be saved"] }, s)
    else
      ({ success := false, applied_flags := 0
         message := "Failed to save fastflags to IxpSettings.json"
         errors := ["Failed to save fastflags to IxpSettings.json"] }, s)

/-- Result record of `remove_fastflags`. -/
structure RemoveResult where
  success : Bool
  removed_flags : Nat
  message : String
  errors : List String
deriving Repr, DecidableEq

/-- The `for flag_name in flags_to_remove` loop of `remove_fastflags`:
delete each name from the live settings (counting the ones that were
present) and from the ledger's `applied_flags`. -/
def removeFlagsLoop : List String → Dict → Dict → Nat → Dict × Dict × Nat
  | [], cs, af, n => (cs, af, n)
  | k :: rest, cs, af, n =>
      let csn := if Dict.hasKey cs k then (Dict.erase cs k, n + 1) else (cs, n)
      let af := if Dict.hasKey af k then Dict.erase af k else af
      removeFlagsLoop rest csn.1 af csn.2

/-- Embeds `remove_fastflags` from `src/fastflags.py`; `flag_names = none`
models the Python default `None` (remove every tracked flag). -/
def remove_fastflags (now : String) (s : FFState)
    (flag_names : Option (List String)) : RemoveResult × FFState :=
  let current_settings := load_ixp_settings s
  let tracking_data := load_tracking_data s
  if tracking_data.applied_flags.isEmpty then
    ({ success := false, removed_flags := 0
       message := "No CDBL fastflags found to remove", errors := [] }, s)
  else
    let flags_to_remove :=
      match flag_names with
      | none => tracking_data.applied_flags.map (fun p => p.1)
      | some names =>
          names.filter (fun n => Dict.hasKey tracking_data.applied_flags n)
    if flags_to_remove.isEmpty then
      ({ success := false, removed_flags := 0
         message := "No matching CDBL fastflags found to remove"
         errors := [] }, s)
    else
      let r := removeFlagsLoop flags_to_remove current_settings
        tracking_data.applied_flags 0
      let current_settings := r.1
      let tracking_data := { tracking_data with applied_flags := r.2.1 }
      let removed_count := r.2.2
      let (s, okSettings) := save_ixp_settings s current_settings
      if okSettings then
        let (s, okTracking) := save_tracking_data now s tracking_data
        if okTracking then
          ({ success := true, removed_flags := removed_count
             message := "Successfully removed " ++ toString removed_count
               ++ " CDBL fastflags"
             errors := [] }, s)
        else
          ({ success := true, removed_flags := removed_count
             message := "Removed " ++ toString removed_count
               ++ " fastflags (tracking update failed)"
             errors := ["Warning: Fastflags removed but tracking data could not be updated"] }, s)
      else
        ({ success := false, removed_flags := 0
           message := "Failed to save updated settings to IxpSettings.json"
           errors := ["Failed to save updated settings to IxpSettings.json"] }, s)

/-- Result record of the operations that carry only
`success`/`message`/`errors` (restore, named-fix apply/remove, asset
swap). -/
structure OpResult where
  success : Bool
  message : String
  errors : List String
deriving Repr, DecidableEq

/-- Embeds `restore_original_settings` from `src/fastflags.py`. -/
def restore_original_settings (now : String) (s : FFState) :
    OpResult × FFState :=
  let tracking_data := load_tracking_data s
  if tracking_data.backup.isEmpty then
    ({ success := false
       message := "No backup found to restore from. Please run CDBL setup first to create an initial backup."
       errors := ["No backup found to restore from. Please run CDBL setup first to create an initial backup."] }, s)
  else
    let (s, okSettings) := save_ixp_settings s tracking_data.backup
    if okSettings then
      let tracking_data := { tracking_data with applied_flags := [], backup := [] }
      let (s, okTracking) := save_tracking_data now s tracking_data
      if okTracking then
        ({ success := true
           message := "Successfully restored original Roblox settings"
           errors := [] }, s)
      else
        ({ success := true
           message := "Settings restored (tracking clear failed)"
           errors := ["Warning: Settings restored but tracking data could not be cleared"] }, s)
    else
      ({ success := false
         message := "Failed to restore original settings"
         errors := ["Failed to restore original settings"] }, s)

/-- Embeds `remove_skybox_fastflag` from `src/fastflags.py`. -/
def remove_skybox_fastflag (now : String) (s : FFState) :
    OpResult × FFState :=
  let current_settings := load_ixp_settings s
  let tracking_data := load_tracking_data s
  match tracking_data.skybox_fix with
  | none =>
      ({ success := false
         message := "Skybox fix FastFlag is not currently active"
         errors := [] }, s)
  | some fix =>
      if !fix.active then
        ({ success := false
           message := "Skybox fix FastFlag is not currently active"
           errors := [] }, s)
      else
        let flag_name := fix.flag_applied.getD "FFlagHttpUseRbxStorage10"
        let current_settings :=
          if Dict.hasKey current_settings flag_name then
            Dict.erase current_settings flag_name
          else current_settings
        let applied :=
          if Dict.hasKey tracking_data.applied_flags flag_name then
            Dict.erase tracking_data.applied_flags flag_name
          else tracking_data.applied_flags
        let tracking_data :=
          { tracking_data with applied_flags := applied
                               skybox_fix := some { fix with active := false } }
        let (s, okSettings) := save_ixp_settings s current_settings
        if okSettings then
          let (s, okTracking) := save_tracking_data now s tracking_data
          if okTracking then
            ({ success := true
               message := "Skybox fix FastFlag removed successfully"
               errors := [] }, s)
          else
            ({ success := true
               message := "Skybox FastFlag removed (tracking failed)"
               errors := ["Warning: FastFlag removed but tracking update failed"] }, s)
        else
          ({ success := false
             message := "Failed to save updated settings"
             errors := ["Failed to save updated settings"] }, s)

/-- Embeds `remove_no_arms_fastflag` from `src/fastflags.py`.  After delegating
to `remove_fastflags`, the function saves the tracking document it
loaded at entry (with only `no_arms_fix.active` flipped), exactly as the
Python does. -/
def remove_no_arms_fastflag (now : String) (s : FFState) :
    OpResult × FFState :=
  let tracking_data := load_tracking_data s
  match tracking_data.no_arms_fix with
  | none =>
      ({ success := false
         message := "No arms fix is not currently active"
         errors := ["No arms fix is not currently active"] }, s)
  | some fix =>
      if !fix.active then
        ({ success := false
           message := "No arms fix is not currently active"
           errors := ["No arms fix is not currently active"] }, s)
      else
        let flag_name := fix.flag_applied.getD "FFlagHttpUseRbxStorage10"
        let rr := remove_fastflags now s (some [flag_name])
        let remove_result := rr.1
        let s := rr.2
        if !remove_result.success then
          ({ success := false
             message := "Failed to remove no arms FastFlag"
             errors := remove_result.errors }, s)
        else
          let tracking_data :=
            { tracking_data with no_arms_fix := some { fix with active := false } }
          let (s, okTracking) := save_tracking_data now s tracking_data
          if okTracking then
            ({ success := true
               message := "No arms FastFlag removed successfully (" ++ flag_name ++ ")"
               errors := [] }, s)
          else
            ({ success := false
               message := "FastFlag removed but failed to update tracking data"
               errors := ["FastFlag removed but failed to update tracking data"] }, s)

/-!
## Asset cache model (`src/assets.py`)

The extracted replacement-assets directory is a flat directory of files
(the archives store each asset under its hash as the filename); it is a
list of `SrcFile`, and `get_file_hash` is an abstract digest function `h`
passed as a parameter.  The live Roblox cache is a tree that `os.walk`
flattens into an ordered list of `CacheFile` entries, each carrying its
full path (the join of its directory and basename) and its basename.
`shutil.copy2` becomes `writeFile`, which overwrites an existing path in
place or creates a fresh entry.
-/

/-- Python's `str.lower()` on the strings this code compares (a
character-wise lowercase map). -/
def lowerStr (s : String) : String := String.mk (s.data.map Char.toLower)

/-- A file in the extracted replacement-assets directory. -/
structure SrcFile where
  name : String
  content : String
deriving Repr, DecidableEq

/-- Embeds `find_asset_by_hash`: walk the directory and return the first file
whose streamed digest matches the target case-insensitively. -/
def find_asset_by_hash (h : String → String) (files : List SrcFile)
    (target_hash : String) : Option SrcFile :=
  files.find? (fun f => lowerStr (h f.content) = lowerStr target_hash)

/-- Embeds `find_replacement_asset`: `none` when the extraction directory does
not exist; otherwise the direct filename lookup with the full hash scan
as fallback. -/
def find_replacement_asset (h : String → String) (extractDirExists : Bool)
    (files : List SrcFile) (replacement_hash : String) : Option SrcFile :=
  if !extractDirExists then none
  else
    match files.find? (fun f => f.name = replacement_hash) with
    | some f => some f
    | none => find_asset_by_hash h files replacement_hash

/-- A file of the live Roblox cache as `os.walk` yields it: full path
and basename.  For a file at the top level, `path = root ++ "/" ++ name`. -/
structure CacheFile where
  path : String
  name : String
  content : String
deriving Repr, DecidableEq

/-- The live Roblox cache directory. -/
structure RobloxCache where
  dirExists : Bool
  root : String
  files : List CacheFile
deriving Repr, DecidableEq

/-- The nested `os.walk` loop of `swap_asset` / `place_asset_in_cache`:
first file whose basename matches the hash exactly or
case-insensitively. -/
def findCacheFile (files : List CacheFile) (hash : String) :
    Option CacheFile :=
  files.find? (fun f => f.name = hash || lowerStr f.name = lowerStr hash)

/-- Embeds `os.path.exists` on a full path inside the cache. -/
def cachePathExists (files : List CacheFile) (p : String) : Bool :=
  files.any (fun f => f.path = p)

/-- Embeds `shutil.copy2 _ dst`: overwrite the file at path `dst` if it
exists, create it otherwise. -/
def writeFile (files : List CacheFile) (p n c : String) : List CacheFile :=
  if cachePathExists files p then
    files.map (fun f => if f.path = p then { f with content := c } else f)
  else files ++ [{ path := p, name := n, content := c }]

/-- The suffix appended to an original path to name its backup sibling. -/
def backupSuffix : String := ".cdbl_backup"

/-- Embeds `swap_asset` from `src/assets.py`: find the replacement, find the
original in the cache by basename, back the original up unless a backup
sibling already exists, then overwrite the original with the
replacement's content. -/
def swap_asset (h : String → String) (extractDirExists : Bool)
    (assets : List SrcFile) (cache : RobloxCache)
    (original_hash replacement_hash : String) : OpResult × RobloxCache :=
  if !cache.dirExists then
    ({ success := false, message := "Roblox cache directory not found"
       errors := ["Roblox cache directory not found"] }, cache)
  else
    match find_replacement_asset h extractDirExists assets replacement_hash with
    | none =>
        ({ success := false
           message := "Replacement asset with hash " ++ replacement_hash
             ++ " not found in extracted assets"
           errors := ["Replacement asset with hash " ++ replacement_hash
             ++ " not found in extracted assets"] }, cache)
    | some repl =>
        match findCacheFile cache.files original_hash with
        | none =>
            ({ success := false
               message := "Original asset with hash " ++ original_hash
                 ++ " not found in Roblox cache"
               errors := ["Original asset with hash " ++ original_hash
                 ++ " not found in Roblox cache"] }, cache)
        | some orig =>
            let backup_path := orig.path ++ backupSuffix
            let files :=
              if cachePathExists cache.files backup_path then cache.files
              else writeFile cache.files backup_path
                (orig.name ++ backupSuffix) orig.content
            let files := writeFile files orig.path orig.name repl.content
            ({ success := true
               message := "Successfully swapped asset " ++ original_hash
               errors := [] }, { cache with files := files })

/-- Embeds `place_asset_in_cache` from `src/assets.py`: like `swap_asset` when
the target basename is found in the cache, otherwise copy the
replacement directly to `root/asset_hash`. -/
def place_asset_in_cache (h : String → String) (extractDirExists : Bool)
    (assets : List SrcFile) (cache : RobloxCache)
    (asset_hash replacement_hash : String) : OpResult × RobloxCache :=
  if !cache.dirExists then
    ({ success := false, message := "Roblox cache directory not found"
       errors := ["Roblox cache directory not found"] }, cache)
  else
    match find_replacement_asset h extractDirExists assets replacement_hash with
    | none =>
        ({ success := false
           message := "Replacement asset with hash " ++ replacement_hash
             ++ " not found in extracted assets"
           errors := ["Replacement asset with hash " ++ replacement_hash
             ++ " not found in extracted assets"] }, cache)
    | some repl =>
        match findCacheFile cache.files asset_hash with
        | some orig =>
            let backup_path := orig.path ++ backupSuffix
            let files :=
              if cachePathExists cache.files backup_path then cache.files
              else writeFile cache.files backup_path
                (orig.name ++ backupSuffix) orig.content
            let files := writeFile files orig.path orig.name repl.content
            ({ success := true
               message := "Replaced existing asset " ++ asset_hash
               errors := [] }, { cache with files := files })
        | none =>
            let destination_path := cache.root ++ "/" ++ asset_hash
            let files :=
              writeFile cache.files destination_path asset_hash repl.content
            ({ success := true
               message := "Placed new asset " ++ asset_hash ++ " in cache"
               errors := [] }, { cache with files := files })

/-- Result record of `apply_skybox_fix`. -/
structure SkyboxFixResult where
  success : Bool
  message : String
  swapped_assets : List String
  errors : List String
deriving Repr, DecidableEq

/-- The `for original_hash, replacement_hash in assets_data.items()`
loop of `apply_skybox_fix`: place every pair, never aborting early,
collecting swapped hashes, per-failure error strings and both counters. -/
def skyboxSwapLoop (h : String → String) (extractDirExists : Bool)
    (assets : List SrcFile) :
    List (String × String) → RobloxCache → List String → List String →
      Nat → Nat → RobloxCache × List String × List String × Nat × Nat
  | [], cache, swapped, errors, sc, fc => (cache, swapped, errors, sc, fc)
  | (oh, rh) :: rest, cache, swapped, errors, sc, fc =>
      let r := place_asset_in_cache h extractDirExists assets cache oh rh
      if r.1.success then
        skyboxSwapLoop h extractDirExists assets rest r.2 (swapped ++ [oh])
          errors (sc + 1) fc
      else
        skyboxSwapLoop h extractDirExists assets rest r.2 swapped
          (errors ++ ["Failed to swap " ++ oh ++ ": " ++ r.1.message]) sc
          (fc + 1)

/-- The two fastflags `apply_skybox_fix` applies after the swap batch. -/
def skybox_fix_flags : Dict :=
  [("FFlagRenderSkyboxUseIBL", "False"), ("FFlagRenderSkyboxUseEnvMap", "False")]

/-- Embeds `apply_skybox_fix` from `src/assets.py`.  The network download step
is modelled by `downloadOk` / `downloadErrors`; the re-read of
`assets.json` by `assetsJson` (`none` = file missing, `some none` =
parse failure with exception text `parseErr`, `some (some pairs)` = the
parsed hash-to-hash mapping in item order). -/
def apply_skybox_fix (h : String → String) (extractDirExists : Bool)
    (assets : List SrcFile) (downloadOk : Bool)
    (downloadErrors : List String)
    (assetsJson : Option (Option (List (String × String))))
    (parseErr : String) (cache : RobloxCache) (now : String)
    (ffs : FFState) : SkyboxFixResult × RobloxCache × FFState :=
  if !downloadOk then
    ({ success := false, message := "Failed to download required assets"
       swapped_assets := [], errors := downloadErrors }, cache, ffs)
  else
    match assetsJson with
    | none =>
        ({ success := false, message := "assets.json not found"
           swapped_assets := [], errors := ["assets.json not found"] },
          cache, ffs)
    | some none =>
        ({ success := false
           message := "Failed to load assets.json: " ++ parseErr
           swapped_assets := []
           errors := ["Failed to load assets.json: " ++ parseErr] },
          cache, ffs)
    | some (some assets_data) =>
        let L := skyboxSwapLoop h extractDirExists assets assets_data cache
          [] [] 0 0
        let cache := L.1
        let swapped := L.2.1
        let errors := L.2.2.1
        let swapped_count := L.2.2.2.1
        let failed_count := L.2.2.2.2
        let ffr := apply_fastflags now ffs skybox_fix_flags
        let ffs := ffr.2
        if !ffr.1.success then
          ({ success := false
             message := "Failed to apply skybox fix fastflags"
             swapped_assets := swapped
             errors := errors ++ ffr.1.errors }, cache, ffs)
        else if swapped_count > 0 then
          if failed_count > 0 then
            ({ success := true
               message := "Skybox fix applied with " ++ toString swapped_count
                 ++ " assets swapped (" ++ toString failed_count ++ " failed)"
               swapped_assets := swapped, errors := errors }, cache, ffs)
          else
            ({ success := true
               message := "Skybox fix applied successfully ("
                 ++ toString swapped_count ++ " assets swapped)"
               swapped_assets := swapped, errors := errors }, cache, ffs)
        else if failed_count > 0 then
          ({ success := false
             message := "No assets were swapped (" ++ toString failed_count
               ++ " failed)"
             swapped_assets := swapped, errors := errors }, cache, ffs)
        else
          ({ success := false, message := "No assets were swapped"
             swapped_assets := swapped, errors := errors }, cache, ffs)

/-!
## Concrete states used by witnesses and counterexamples
-/

/-- A fresh environment: no settings file, no tracking file, all writes
succeed. -/
def freshState : FFState :=
  { ixp := none, trackingFile := none, ixpWriteOk := true
    trackingWriteOk := true }

/-- A fresh environment whose settings write fails. -/
def ixpFailState : FFState :=
  { ixp := none, trackingFile := none, ixpWriteOk := false
    trackingWriteOk := true }

/-!
## Theorems
-/

/-- C10: `apply_fastflags` on an empty flag mapping fails fast with the
fixed message duplicated into `errors` and leaves both files untouched. -/
theorem apply_fastflags_empty_rejected (now : String) (s : FFState) :
    apply_fastflags now s [] =
      ({ success := false, applied_flags := 0
         message := "No fastflags provided to apply"
         errors := ["No fastflags provided to apply"] }, s) := rfl

/-- C3: when the settings write fails, `apply_fastflags` and
`remove_fastflags` report failure and leave the whole persistent state —
in particular the tracking ledger — exactly as it was, so the ledger
never records a flag whose settings write failed. -/
theorem write_failure_leaves_ledger_untouched (now : String) (s : FFState)
    (flags : Dict) (names : Option (List String))
    (hw : s.ixpWriteOk = false) :
    ((apply_fastflags now s flags).1.success = false ∧
      (apply_fastflags now s flags).2 = s) ∧
    ((remove_fastflags now s names).1.success = false ∧
      (remove_fastflags now s names).2 = s) := by
  constructor
  · unfold apply_fastflags save_ixp_settings save_tracking_data
    simp only [hw]
    split
    · exact ⟨rfl, rfl⟩
    · simp
  · unfold remove_fastflags save_ixp_settings save_tracking_data
    simp only [hw]
    split
    · exact ⟨rfl, rfl⟩
    · split
      · exact ⟨rfl, rfl⟩
      · simp

/-- Witness for C3 at a concrete state whose settings write fails. -/
theorem write_failure_leaves_ledger_untouched_witness :
    ixpFailState.ixpWriteOk = false ∧
    ((apply_fastflags "t" ixpFailState [("A", "1")]).1.success = false ∧
      (apply_fastflags "t" ixpFailState [("A", "1")]).2 = ixpFailState) ∧
    ((remove_fastflags "t" ixpFailState none).1.success = false ∧
      (remove_fastflags "t" ixpFailState none).2 = ixpFailState) := by
  have h := write_failure_leaves_ledger_untouched "t" ixpFailState
    [("A", "1")] none rfl
  exact ⟨rfl, h.1, h.2⟩

/-- A state with one tracked flag applied, whose settings write succeeds
but whose tracking write fails. -/
def trackFailState : FFState :=
  { ixp := some [("A", "1")]
    trackingFile := some { defaultTracking with applied_flags := [("A", "1")] }
    ixpWriteOk := true
    trackingWriteOk := false }

/-- C7: when the settings file writes but the ledger write fails, both
`apply_fastflags` and `remove_fastflags` still report success, carrying
the tracking-failure warning in `errors`. -/
theorem ledger_write_failure_reported_as_warning (now : String)
    (s : FFState) (flags : Dict) (names : List String)
    (h1 : s.ixpWriteOk = true) (h2 : s.trackingWriteOk = false) :
    (flags ≠ [] →
      (apply_fastflags now s flags).1.success = true ∧
      "Warning: Fastflags applied but tracking data could not be saved" ∈
        (apply_fastflags now s flags).1.errors) ∧
    ((load_tracking_data s).applied_flags ≠ [] →
      names.filter
        (fun n => Dict.hasKey (load_tracking_data s).applied_flags n) ≠ [] →
      (remove_fastflags now s (some names)).1.success = true ∧
      "Warning: Fastflags removed but tracking data could not be updated" ∈
        (remove_fastflags now s (some names)).1.errors) := by
  constructor
  · intro hne
    have hE : flags.isEmpty = false := by
      cases flags with
      | nil => exact absurd rfl hne
      | cons a l => rfl
    unfold apply_fastflags save_ixp_settings save_tracking_data
    simp [hE, h1, h2]
  · intro hne1 hne2
    have hE1 : (load_tracking_data s).applied_flags.isEmpty = false := by
      cases hL : (load_tracking_data s).applied_flags with
      | nil => exact absurd hL hne1
      | cons a l => rfl
    have hE2 : (names.filter
        (fun n => Dict.hasKey (load_tracking_data s).applied_flags n)).isEmpty
          = false := by
      cases hL : names.filter
          (fun n => Dict.hasKey (load_tracking_data s).applied_flags n) with
      | nil => exact absurd hL hne2
      | cons a l => rfl
    unfold remove_fastflags save_ixp_settings save_tracking_data
    simp [hE1, hE2, h1, h2]

/-- Witness for C7 at a concrete state whose tracking write fails. -/
theorem ledger_write_failure_reported_as_warning_witness :
    (trackFailState.ixpWriteOk = true ∧
      trackFailState.trackingWriteOk = false ∧
      ([("B", "2")] : Dict) ≠ [] ∧
      (load_tracking_data trackFailState).applied_flags ≠ [] ∧
      ["A"].filter
        (fun n => Dict.hasKey (load_tracking_data trackFailState).applied_flags n)
        ≠ []) ∧
    ((apply_fastflags "t" trackFailState [("B", "2")]).1.success = true ∧
      "Warning: Fastflags applied but tracking data could not be saved" ∈
        (apply_fastflags "t" trackFailState [("B", "2")]).1.errors) ∧
    ((remove_fastflags "t" trackFailState (some ["A"])).1.success = true ∧
      "Warning: Fastflags removed but tracking data could not be updated" ∈
        (remove_fastflags "t" trackFailState (some ["A"])).1.errors) := by
  have h := ledger_write_failure_reported_as_warning "t" trackFailState
    [("B", "2")] ["A"] rfl rfl
  exact ⟨⟨by decide, rfl, by decide, by decide, by decide⟩,
    h.1 (by decide), h.2 (by decide) (by decide)⟩

/-- C2 counterexample: starting from a fresh environment (empty
settings), the first `apply_fastflags` call snapshots the empty state
(`backup = {}`), and a second call overwrites that snapshot with the
then-current settings — which already contain the first call's flag. -/
theorem second_apply_overwrites_empty_backup :
    (load_tracking_data
        (apply_fastflags "t1" freshState [("A", "1")]).2).backup = [] ∧
    (load_tracking_data (apply_fastflags "t2"
        (apply_fastflags "t1" freshState [("A", "1")]).2
        [("B", "2")]).2).backup = [("A", "1")] := by decide

/-- C2 amended: once the ledger's backup snapshot is non-empty, no later
`apply_fastflags` call ever changes it, so the first non-empty snapshot
wins; only the empty snapshot (taken when the settings state was empty)
is treated as never-initialized and can be re-snapshotted. -/
theorem nonempty_backup_never_overwritten (now : String) (s : FFState)
    (flags : Dict) (hb : (load_tracking_data s).backup ≠ []) :
    (load_tracking_data (apply_fastflags now s flags).2).backup =
      (load_tracking_data s).backup := by
  have hE : (load_tracking_data s).backup.isEmpty = false := by
    cases hL : (load_tracking_data s).backup with
    | nil => exact absurd hL hb
    | cons a l => rfl
  cases hF : flags.isEmpty with
  | true =>
      cases flags with
      | nil => rfl
      | cons a l => simp [List.isEmpty] at hF
  | false =>
      cases hix : s.ixpWriteOk with
      | false =>
          unfold apply_fastflags save_ixp_settings
          simp [hF, hix]
      | true =>
          have hb' : (s.trackingFile.getD defaultTracking).backup ≠ [] := hb
          cases htr : s.trackingWriteOk with
          | false =>
              unfold apply_fastflags save_ixp_settings save_tracking_data
              simp [hF, hix, htr, load_tracking_data, hb']
          | true =>
              unfold apply_fastflags save_ixp_settings save_tracking_data
              simp [hF, hix, htr, load_tracking_data, hb']

/-- A state holding a non-empty backup snapshot, with one tracked flag
and all writes succeeding. -/
def backedUpState : FFState :=
  { ixp := some [("A", "1"), ("Orig", "0")]
    trackingFile := some { defaultTracking with
      applied_flags := [("A", "1")], backup := [("Orig", "0")] }
    ixpWriteOk := true
    trackingWriteOk := true }

/-- Witness for the amended C2 at a concrete state holding a non-empty
snapshot. -/
theorem nonempty_backup_never_overwritten_witness :
    (load_tracking_data backedUpState).backup ≠ [] ∧
    (load_tracking_data (apply_fastflags "t" backedUpState
        [("B", "2")]).2).backup =
      (load_tracking_data backedUpState).backup := by
  exact ⟨by decide,
    nonempty_backup_never_overwritten "t" backedUpState [("B", "2")]
      (by decide)⟩

/-- C4: with an empty (never-initialized) backup snapshot,
`restore_original_settings` fails with the no-backup message and leaves
the state untouched; with a non-empty snapshot and succeeding writes it
overwrites the live settings with the snapshot verbatim and clears both
`applied_flags` and `backup` in the ledger. -/
theorem restore_original_settings_spec (now : String) (s : FFState) :
    ((load_tracking_data s).backup = [] →
      (restore_original_settings now s).1.success = false ∧
      "No backup found to restore from. Please run CDBL setup first to create an initial backup."
        ∈ (restore_original_settings now s).1.errors ∧
      (restore_original_settings now s).2 = s) ∧
    ((load_tracking_data s).backup ≠ [] → s.ixpWriteOk = true →
      s.trackingWriteOk = true →
      (restore_original_settings now s).1.success = true ∧
      (restore_original_settings now s).2.ixp =
        some (load_tracking_data s).backup ∧
      (load_tracking_data (restore_original_settings now s).2).applied_flags
        = [] ∧
      (load_tracking_data (restore_original_settings now s).2).backup = []) := by
  constructor
  · intro hb
    unfold restore_original_settings
    simp [hb]
  · intro hb hix htr
    have hb' : (s.trackingFile.getD defaultTracking).backup ≠ [] := hb
    unfold restore_original_settings save_ixp_settings save_tracking_data
    simp [hix, htr, load_tracking_data, hb']

/-- Witness for C4: the empty-backup branch at a fresh state and the
restore branch at a state with a non-empty snapshot. -/
theorem restore_original_settings_spec_witness :
    ((load_tracking_data freshState).backup = [] ∧
      (restore_original_settings "t" freshState).1.success = false ∧
      "No backup found to restore from. Please run CDBL setup first to create an initial backup."
        ∈ (restore_original_settings "t" freshState).1.errors ∧
      (restore_original_settings "t" freshState).2 = freshState) ∧
    ((load_tracking_data backedUpState).backup ≠ [] ∧
      (restore_original_settings "t" backedUpState).1.success = true ∧
      (restore_original_settings "t" backedUpState).2.ixp =
        some (load_tracking_data backedUpState).backup ∧
      (load_tracking_data
        (restore_original_settings "t" backedUpState).2).applied_flags = [] ∧
      (load_tracking_data
        (restore_original_settings "t" backedUpState).2).backup = []) := by
  have h1 := (restore_original_settings_spec "t" freshState).1 (by decide)
  have h2 := (restore_original_settings_spec "t" backedUpState).2
    (by decide) rfl rfl
  exact ⟨⟨by decide, h1.1, h1.2.1, h1.2.2⟩,
    ⟨by decide, h2.1, h2.2.1, h2.2.2.1, h2.2.2.2⟩⟩

/-- Erasing one key leaves lookups of every other key unchanged. -/
theorem get?_erase_ne (d : Dict) (k B : String) (h : k ≠ B) :
    Dict.get? (Dict.erase d k) B = Dict.get? d B := by
  unfold Dict.erase Dict.get?
  have hfun : (fun a : String × String =>
        decide (decide (a.1 ≠ k) = true ∧ decide (a.1 = B) = true))
      = fun a : String × String => decide (a.1 = B) := by
    funext a
    by_cases hB : a.1 = B
    · have hk : a.1 ≠ k := by
        rw [hB]
        exact fun he => h he.symm
      simp [hB, hk]
      exact fun he => h he.symm
    · simp [hB]
  rw [List.find?_filter, hfun]

/-- The removal loop leaves lookups of keys outside the removal list
unchanged in the live settings. -/
theorem removeFlagsLoop_preserves_other_keys (ks : List String)
    (cs af : Dict) (n : Nat) (B : String) (h : B ∉ ks) :
    Dict.get? (removeFlagsLoop ks cs af n).1 B = Dict.get? cs B := by
  induction ks generalizing cs af n with
  | nil => rfl
  | cons k rest ih =>
      have hkB : k ≠ B := fun he => h (he ▸ List.mem_cons_self k rest)
      have hB : B ∉ rest := fun hm => h (List.mem_cons_of_mem _ hm)
      unfold removeFlagsLoop
      by_cases hcs : Dict.hasKey cs k
      · simp only [hcs, if_true]
        rw [ih _ _ _ hB, get?_erase_ne _ _ _ hkB]
      · simp only [hcs, if_false, Bool.false_eq_true]
        rw [ih _ _ _ hB]

/-- A key the dict does not have is not among its keys. -/
theorem not_mem_keys_of_not_hasKey (d : Dict) (B : String)
    (h : Dict.hasKey d B = false) : B ∉ d.map (fun p => p.1) := by
  intro hm
  rcases List.mem_map.mp hm with ⟨p, hp, he⟩
  have ht : Dict.hasKey d B = true :=
    List.any_eq_true.mpr ⟨p, hp, by simp [he]⟩
  rw [ht] at h
  exact Bool.true_eq_false.mp h

/-- C5: `remove_fastflags` never changes the live-settings value of a
key that is not in the ledger's `applied_flags`, even when the caller
names that key explicitly. -/
theorem remove_fastflags_preserves_foreign_keys (now : String)
    (s : FFState) (flag_names : Option (List String)) (B : String)
    (h : Dict.hasKey (load_tracking_data s).applied_flags B = false) :
    Dict.get? (load_ixp_settings (remove_fastflags now s flag_names).2) B =
      Dict.get? (load_ixp_settings s) B := by
  unfold remove_fastflags
  by_cases hA : (load_tracking_data s).applied_flags.isEmpty
  · simp [hA]
  · simp only [hA, Bool.false_eq_true, if_false]
    cases flag_names with
    | none =>
        have hBk : B ∉ (load_tracking_data s).applied_flags.map
            (fun p => p.1) := not_mem_keys_of_not_hasKey _ _ h
        by_cases hF : ((load_tracking_data s).applied_flags.map
            (fun p => p.1)).isEmpty
        · simp [hF]
        · simp only [hF, Bool.false_eq_true, if_false]
          unfold save_ixp_settings
          by_cases hix : s.ixpWriteOk
          · simp only [hix, if_true]
            by_cases htr : s.trackingWriteOk
            · simp only [save_tracking_data, htr, if_true]
              simp [load_ixp_settings,
                removeFlagsLoop_preserves_other_keys _ _ _ _ _ hBk]
            · simp only [save_tracking_data, htr, Bool.false_eq_true,
                if_false]
              simp [load_ixp_settings,
                removeFlagsLoop_preserves_other_keys _ _ _ _ _ hBk]
          · simp [hix]
    | some names =>
        have hBk : B ∉ names.filter
            (fun n => Dict.hasKey (load_tracking_data s).applied_flags n) := by
          intro hm
          have := List.of_mem_filter hm
          rw [this] at h
          exact Bool.true_eq_false.mp h
        by_cases hF : (names.filter
            (fun n => Dict.hasKey (load_tracking_data s).applied_flags n)).isEmpty
        · simp [hF]
        · simp only [hF, Bool.false_eq_true, if_false]
          unfold save_ixp_settings
          by_cases hix : s.ixpWriteOk
          · simp only [hix, if_true]
            by_cases htr : s.trackingWriteOk
            · simp only [save_tracking_data, htr, if_true]
              simp [load_ixp_settings,
                removeFlagsLoop_preserves_other_keys _ _ _ _ _ hBk]
            · simp only [save_tracking_data, htr, Bool.false_eq_true,
                if_false]
              simp [load_ixp_settings,
                removeFlagsLoop_preserves_other_keys _ _ _ _ _ hBk]
          · simp [hix]

/-- A state whose live settings hold a pre-existing foreign key `B`
this tool never applied. -/
def foreignKeyState : FFState :=
  { ixp := some [("B", "7")], trackingFile := none, ixpWriteOk := true
    trackingWriteOk := true }

/-- Witness for C5: `apply({"A": "1"})` then `remove(["B"])` leaves the
pre-existing key `B` with its original value `"7"`. -/
theorem remove_fastflags_preserves_foreign_keys_witness :
    Dict.hasKey (load_tracking_data
        (apply_fastflags "t1" foreignKeyState [("A", "1")]).2).applied_flags
        "B" = false ∧
    Dict.get? (load_ixp_settings (remove_fastflags "t2"
        (apply_fastflags "t1" foreignKeyState [("A", "1")]).2
        (some ["B"])).2) "B" =
      Dict.get? (load_ixp_settings
        (apply_fastflags "t1" foreignKeyState [("A", "1")]).2) "B" ∧
    Dict.get? (load_ixp_settings
        (apply_fastflags "t1" foreignKeyState [("A", "1")]).2) "B" =
      some "7" := by
  exact ⟨by decide,
    remove_fastflags_preserves_foreign_keys "t2"
      (apply_fastflags "t1" foreignKeyState [("A", "1")]).2 (some ["B"]) "B"
      (by decide),
    by decide⟩

/-- The activity test the removal functions perform on a named-fix
sub-record (`"skybox_fix" not in tracking_data or not
tracking_data["skybox_fix"].get("active", False)`). -/
def fixActive : Option Fix → Bool
  | none => false
  | some f => f.active

/-- C9 counterexample: with no active fix, both removal operations
return `success = False` (together with the explanatory message), not
the success result the claim asserts. -/
theorem remove_inactive_fix_returns_failure :
    (remove_skybox_fastflag "t" freshState).1.success = false ∧
    (remove_skybox_fastflag "t" freshState).1.message =
      "Skybox fix FastFlag is not currently active" ∧
    (remove_no_arms_fastflag "t" freshState).1.success = false ∧
    (remove_no_arms_fastflag "t" freshState).1.message =
      "No arms fix is not currently active" := by decide

/-- C9 amended: for each named fix separately, removing it while it is
not currently active is a no-op that returns the explanatory not-active
message, but with `success = False` rather than a success result —
whatever the state of the other fix. -/
theorem remove_inactive_fix_noop (now : String) (s : FFState) :
    (fixActive (load_tracking_data s).skybox_fix = false →
      remove_skybox_fastflag now s =
        ({ success := false
           message := "Skybox fix FastFlag is not currently active"
           errors := [] }, s)) ∧
    (fixActive (load_tracking_data s).no_arms_fix = false →
      remove_no_arms_fastflag now s =
        ({ success := false
           message := "No arms fix is not currently active"
           errors := ["No arms fix is not currently active"] }, s)) := by
  constructor
  · intro h1
    unfold remove_skybox_fastflag
    cases hf : (load_tracking_data s).skybox_fix with
    | none => simp [hf]
    | some f =>
        rw [hf] at h1
        simp only [fixActive] at h1
        simp [hf, h1]
  · intro h2
    unfold remove_no_arms_fastflag
    cases hf : (load_tracking_data s).no_arms_fix with
    | none => simp [hf]
    | some f =>
        rw [hf] at h2
        simp only [fixActive] at h2
        simp [hf, h2]

/-- A state with the no-arms fix active and the skybox fix inactive
(reachable, since both fixes apply the same flag). -/
def noArmsOnlyState : FFState :=
  { ixp := some [("FFlagHttpUseRbxStorage10", "false")]
    trackingFile := some { defaultTracking with
      applied_flags := [("FFlagHttpUseRbxStorage10", "false")]
      skybox_fix := some { active := false, flag_applied := some "FFlagHttpUseRbxStorage10" }
      no_arms_fix := some { active := true, flag_applied := some "FFlagHttpUseRbxStorage10" } }
    ixpWriteOk := true
    trackingWriteOk := true }

/-- A state with the skybox fix active and the no-arms fix inactive. -/
def skyboxOnlyState : FFState :=
  { ixp := some [("FFlagHttpUseRbxStorage10", "false")]
    trackingFile := some { defaultTracking with
      applied_flags := [("FFlagHttpUseRbxStorage10", "false")]
      skybox_fix := some { active := true, flag_applied := some "FFlagHttpUseRbxStorage10" }
      no_arms_fix := some { active := false, flag_applied := some "FFlagHttpUseRbxStorage10" } }
    ixpWriteOk := true
    trackingWriteOk := true }

/-- Witness for the amended C9 at mixed states: the skybox removal
no-op while the no-arms fix is active, and the no-arms removal no-op
while the skybox fix is active. -/
theorem remove_inactive_fix_noop_witness :
    (fixActive (load_tracking_data noArmsOnlyState).skybox_fix = false ∧
      remove_skybox_fastflag "t" noArmsOnlyState =
        ({ success := false
           message := "Skybox fix FastFlag is not currently active"
           errors := [] }, noArmsOnlyState)) ∧
    (fixActive (load_tracking_data skyboxOnlyState).no_arms_fix = false ∧
      remove_no_arms_fastflag "t" skyboxOnlyState =
        ({ success := false
           message := "No arms fix is not currently active"
           errors := ["No arms fix is not currently active"] },
          skyboxOnlyState)) := by
  exact ⟨⟨by decide,
      (remove_inactive_fix_noop "t" noArmsOnlyState).1 (by decide)⟩,
    ⟨by decide,
      (remove_inactive_fix_noop "t" skyboxOnlyState).2 (by decide)⟩⟩

/-- Observed content of the cache file at a full path. -/
def cacheContent (files : List CacheFile) (p : String) : Option String :=
  (files.find? (fun f => f.path = p)).map (fun f => f.content)

/-- A path with observable content passes the `os.path.exists` check. -/
theorem cachePathExists_of_content (files : List CacheFile) (p c : String)
    (h : cacheContent files p = some c) : cachePathExists files p = true := by
  unfold cacheContent at h
  unfold cachePathExists
  cases hf : List.find? (fun f => decide (f.path = p)) files with
  | none => rw [hf] at h; exact absurd h (by simp)
  | some f =>
      have hm : f ∈ files := List.mem_of_find?_eq_some hf
      have hp := List.find?_some hf
      exact List.any_eq_true.mpr ⟨f, hm, hp⟩

/-- Overwriting the content at one path leaves the observed content of
every other path unchanged. -/
theorem cacheContent_overwrite_ne (files : List CacheFile) (p c q : String)
    (h : p ≠ q) :
    cacheContent
      (files.map (fun f => if f.path = p then { f with content := c } else f))
      q = cacheContent files q := by
  unfold cacheContent
  rw [List.find?_map]
  have hpred : ((fun f : CacheFile => decide (f.path = q)) ∘
      (fun f => if f.path = p then { f with content := c } else f))
      = fun f : CacheFile => decide (f.path = q) := by
    funext f
    by_cases hfp : f.path = p
    · simp [Function.comp, hfp]
    · simp [Function.comp, hfp]
  rw [hpred]
  cases hf : List.find? (fun f : CacheFile => decide (f.path = q)) files with
  | none => rfl
  | some a =>
      have ha : a.path = q := by simpa using List.find?_some hf
      have hap : ¬a.path = p := fun he => h (he ▸ ha)
      simp [Option.map_map, Function.comp, hap]

/-- Appending a file at a fresh path leaves the observed content of
every other path unchanged. -/
theorem cacheContent_append_ne (files : List CacheFile) (nf : CacheFile)
    (q : String) (h : ¬nf.path = q) :
    cacheContent (files ++ [nf]) q = cacheContent files q := by
  unfold cacheContent
  simp [List.find?_append, List.find?_cons, h]

/-- Writing the file at one path leaves the observed content of every
other path unchanged. -/
theorem cacheContent_writeFile_ne (files : List CacheFile)
    (p n c q : String) (h : p ≠ q) :
    cacheContent (writeFile files p n c) q = cacheContent files q := by
  unfold writeFile
  by_cases he : cachePathExists files p
  · simp only [he, if_true]
    exact cacheContent_overwrite_ne files p c q h
  · simp only [he, Bool.false_eq_true, if_false]
    exact cacheContent_append_ne files _ q h

/-- The string a path becomes after appending the backup suffix is a
different path. -/
theorem path_ne_backup_path (p : String) : p ≠ p ++ backupSuffix := by
  intro he
  have hl := congrArg String.length he
  rw [String.length_append] at hl
  have : backupSuffix.length = 12 := rfl
  omega

/-- C1: when the found original's backup sibling already exists with
content `c`, neither `swap_asset` nor `place_asset_in_cache` changes
that backup's content. -/
theorem backup_created_at_most_once (h : String → String) (e : Bool)
    (assets : List SrcFile) (cache : RobloxCache) (oh rh : String)
    (orig : CacheFile) (c : String)
    (hfind : findCacheFile cache.files oh = some orig)
    (hb : cacheContent cache.files (orig.path ++ backupSuffix) = some c) :
    cacheContent (swap_asset h e assets cache oh rh).2.files
      (orig.path ++ backupSuffix) = some c ∧
    cacheContent (place_asset_in_cache h e assets cache oh rh).2.files
      (orig.path ++ backupSuffix) = some c := by
  have hex := cachePathExists_of_content _ _ _ hb
  have hne := path_ne_backup_path orig.path
  constructor
  · unfold swap_asset
    cases hd : cache.dirExists with
    | false => simpa [hd] using hb
    | true =>
        cases hr : find_replacement_asset h e assets rh with
        | none => simpa [hd, hr] using hb
        | some repl =>
            simp only [hd, Bool.not_true, Bool.false_eq_true, if_false, hr,
              hfind, hex, if_true]
            rw [cacheContent_writeFile_ne _ _ _ _ _ hne]
            exact hb
  · unfold place_asset_in_cache
    cases hd : cache.dirExists with
    | false => simpa [hd] using hb
    | true =>
        cases hr : find_replacement_asset h e assets rh with
        | none => simpa [hd, hr] using hb
        | some repl =>
            simp only [hd, Bool.not_true, Bool.false_eq_true, if_false, hr,
              hfind, hex, if_true]
            rw [cacheContent_writeFile_ne _ _ _ _ _ hne]
            exact hb

/-- A live cache holding one original file together with its already
existing backup sibling. -/
def backupCache : RobloxCache :=
  { dirExists := true
    root := "R"
    files := [{ path := "R/o1", name := "o1", content := "cur" },
              { path := "R/o1.cdbl_backup", name := "o1.cdbl_backup"
                content := "origc" }] }

/-- A replacement-assets store holding one file named by its hash. -/
def replStore : List SrcFile := [{ name := "r1", content := "newc" }]

/-- Witness for C1: swapping again over an existing backup leaves the
backup's content `"origc"` intact, for both operations. -/
theorem backup_created_at_most_once_witness :
    (findCacheFile backupCache.files "o1" =
        some { path := "R/o1", name := "o1", content := "cur" } ∧
      cacheContent backupCache.files ("R/o1" ++ backupSuffix) =
        some "origc") ∧
    cacheContent (swap_asset id true replStore backupCache "o1" "r1").2.files
      ("R/o1" ++ backupSuffix) = some "origc" ∧
    cacheContent
      (place_asset_in_cache id true replStore backupCache "o1" "r1").2.files
      ("R/o1" ++ backupSuffix) = some "origc" := by
  have h := backup_created_at_most_once id true replStore backupCache
    "o1" "r1" { path := "R/o1", name := "o1", content := "cur" } "origc"
    (by decide) (by decide)
  exact ⟨⟨by decide, by decide⟩, h.1, h.2⟩

/-- C8: with the replacement found, `swap_asset` on a target hash absent
from the cache fails with the original-not-found result and leaves the
cache untouched, while `place_asset_in_cache` copies the replacement in
directly under `root/hash` and succeeds; on a target hash that is found,
`place_asset_in_cache` performs exactly the cache mutation of
`swap_asset` (backup-if-absent then overwrite) and both succeed. -/
theorem swap_strict_place_lenient (h : String → String) (e : Bool)
    (assets : List SrcFile) (cache : RobloxCache) (th rh : String)
    (repl : SrcFile) (hd : cache.dirExists = true)
    (hr : find_replacement_asset h e assets rh = some repl) :
    (findCacheFile cache.files th = none →
      swap_asset h e assets cache th rh =
        ({ success := false
           message := "Original asset with hash " ++ th
             ++ " not found in Roblox cache"
           errors := ["Original asset with hash " ++ th
             ++ " not found in Roblox cache"] }, cache)) ∧
    (findCacheFile cache.files th = none →
      place_asset_in_cache h e assets cache th rh =
        ({ success := true
           message := "Placed new asset " ++ th ++ " in cache"
           errors := [] },
          { cache with
              files := writeFile cache.files (cache.root ++ "/" ++ th) th
                repl.content })) ∧
    (∀ orig, findCacheFile cache.files th = some orig →
      (place_asset_in_cache h e assets cache th rh).2 =
        (swap_asset h e assets cache th rh).2 ∧
      (place_asset_in_cache h e assets cache th rh).1.success = true ∧
      (swap_asset h e assets cache th rh).1.success = true) := by
  refine ⟨?_, ?_, ?_⟩
  · intro hf
    unfold swap_asset
    simp [hd, hr, hf]
  · intro hf
    unfold place_asset_in_cache
    simp [hd, hr, hf]
  · intro orig hf
    unfold swap_asset place_asset_in_cache
    simp [hd, hr, hf]

/-- A live cache holding only one original file `o1` and no backups. -/
def plainCache : RobloxCache :=
  { dirExists := true
    root := "R"
    files := [{ path := "R/o1", name := "o1", content := "cur" }] }

/-- Witness for C8: the target `o1` is found (swap and place agree) and
the target `o2` is absent (swap fails, place creates `R/o2`). -/
theorem swap_strict_place_lenient_witness :
    (plainCache.dirExists = true ∧
      find_replacement_asset id true replStore "r1" =
        some { name := "r1", content := "newc" } ∧
      findCacheFile plainCache.files "o2" = none ∧
      findCacheFile plainCache.files "o1" =
        some { path := "R/o1", name := "o1", content := "cur" }) ∧
    swap_asset id true replStore plainCache "o2" "r1" =
      ({ success := false
         message := "Original asset with hash o2 not found in Roblox cache"
         errors := ["Original asset with hash o2 not found in Roblox cache"] },
        plainCache) ∧
    place_asset_in_cache id true replStore plainCache "o2" "r1" =
      ({ success := true, message := "Placed new asset o2 in cache"
         errors := [] },
        { plainCache with
            files := writeFile plainCache.files
              (plainCache.root ++ "/" ++ "o2") "o2" "newc" }) ∧
    ((place_asset_in_cache id true replStore plainCache "o1" "r1").2 =
        (swap_asset id true replStore plainCache "o1" "r1").2 ∧
      (place_asset_in_cache id true replStore plainCache "o1" "r1").1.success
        = true ∧
      (swap_asset id true replStore plainCache "o1" "r1").1.success = true) := by
  have h2 := swap_strict_place_lenient id true replStore plainCache "o2" "r1"
    { name := "r1", content := "newc" } rfl (by decide)
  have h1 := swap_strict_place_lenient id true replStore plainCache "o1" "r1"
    { name := "r1", content := "newc" } rfl (by decide)
  exact ⟨⟨rfl, by decide, by decide, by decide⟩,
    h2.1 (by decide), h2.2.1 (by decide),
    h1.2.2 { path := "R/o1", name := "o1", content := "cur" } (by decide)⟩

/-- Each batch iteration adds exactly one hash to the swapped list or
one entry to the error list, in lockstep with the two counters: the
loop never aborts early. -/
theorem skyboxSwapLoop_counts (h : String → String) (e : Bool)
    (assets : List SrcFile) (pairs : List (String × String)) :
    ∀ (cache : RobloxCache) (sw er : List String) (sc fc : Nat),
      (skyboxSwapLoop h e assets pairs cache sw er sc fc).2.1.length +
          (skyboxSwapLoop h e assets pairs cache sw er sc fc).2.2.1.length =
        sw.length + er.length + pairs.length ∧
      (skyboxSwapLoop h e assets pairs cache sw er sc fc).2.1.length + sc =
        (skyboxSwapLoop h e assets pairs cache sw er sc fc).2.2.2.1 +
          sw.length ∧
      (skyboxSwapLoop h e assets pairs cache sw er sc fc).2.2.1.length + fc =
        (skyboxSwapLoop h e assets pairs cache sw er sc fc).2.2.2.2 +
          er.length := by
  induction pairs with
  | nil =>
      intro cache sw er sc fc
      simp only [skyboxSwapLoop, List.length_nil]
      omega
  | cons pr rest ih =>
      intro cache sw er sc fc
      obtain ⟨oh, rh⟩ := pr
      unfold skyboxSwapLoop
      cases hs : (place_asset_in_cache h e assets cache oh rh).1.success with
      | true =>
          simp only [hs, if_true]
          have hr := ih (place_asset_in_cache h e assets cache oh rh).2
            (sw ++ [oh]) er (sc + 1) fc
          simp only [List.length_append, List.length_cons,
            List.length_nil] at hr ⊢
          omega
      | false =>
          simp only [hs, Bool.false_eq_true, if_false]
          have hr := ih (place_asset_in_cache h e assets cache oh rh).2
            sw (er ++ ["Failed to swap " ++ oh ++ ": " ++
              (place_asset_in_cache h e assets cache oh rh).1.message]) sc
            (fc + 1)
          simp only [List.length_append, List.length_cons,
            List.length_nil] at hr ⊢
          omega

/-- The two-flag skybox fastflag application succeeds whenever the
settings write succeeds (a failing ledger write is only a warning). -/
theorem apply_skybox_flags_success (now : String) (ffs : FFState)
    (hix : ffs.ixpWriteOk = true) :
    (apply_fastflags now ffs skybox_fix_flags).1.success = true := by
  unfold apply_fastflags save_ixp_settings save_tracking_data
  cases htr : ffs.trackingWriteOk <;> simp [hix, htr, skybox_fix_flags]

/-- C6: with the assets downloaded and `assets.json` parsed, and the
settings write succeeding, `apply_skybox_fix` processes every pair of
the batch (swapped plus failed entries account for the whole batch,
with one error entry per failure) and classifies the outcome as success
exactly when at least one pair swapped. -/
theorem apply_skybox_fix_classification (h : String → String) (e : Bool)
    (assets : List SrcFile) (dErr : List String) (pErr : String)
    (pairs : List (String × String)) (cache : RobloxCache) (now : String)
    (ffs : FFState) (hix : ffs.ixpWriteOk = true) :
    (apply_skybox_fix h e assets true dErr (some (some pairs)) pErr cache
        now ffs).1.swapped_assets.length +
      (apply_skybox_fix h e assets true dErr (some (some pairs)) pErr cache
        now ffs).1.errors.length = pairs.length ∧
    ((apply_skybox_fix h e assets true dErr (some (some pairs)) pErr cache
        now ffs).1.success = true ↔
      0 < (apply_skybox_fix h e assets true dErr (some (some pairs)) pErr
        cache now ffs).1.swapped_assets.length) := by
  have hc := skyboxSwapLoop_counts h e assets pairs cache [] [] 0 0
  simp only [List.length_nil] at hc
  have hff := apply_skybox_flags_success now ffs hix
  unfold apply_skybox_fix
  simp only [Bool.not_true, Bool.false_eq_true, if_false, hff]
  rcases Nat.eq_zero_or_pos
      (skyboxSwapLoop h e assets pairs cache [] [] 0 0).2.2.2.1 with
    hsc | hsc
  · rw [if_neg (by omega)]
    rcases Nat.eq_zero_or_pos
        (skyboxSwapLoop h e assets pairs cache [] [] 0 0).2.2.2.2 with
      hfc | hfc
    · rw [if_neg (by omega)]
      refine ⟨by dsimp only; omega, ?_⟩
      dsimp only
      simp only [Bool.false_eq_true, false_iff]
      omega
    · rw [if_pos hfc]
      refine ⟨by dsimp only; omega, ?_⟩
      dsimp only
      simp only [Bool.false_eq_true, false_iff]
      omega
  · rw [if_pos hsc]
    rcases Nat.eq_zero_or_pos
        (skyboxSwapLoop h e assets pairs cache [] [] 0 0).2.2.2.2 with
      hfc | hfc
    · rw [if_neg (by omega)]
      refine ⟨by dsimp only; omega, ?_⟩
      dsimp only
      simp only [true_iff]
      omega
    · rw [if_pos hfc]
      refine ⟨by dsimp only; omega, ?_⟩
      dsimp only
      simp only [true_iff]
      omega

/-- A replacement store holding four of the six replacement hashes of
the witness batch. -/
def sixAssets : List SrcFile :=
  [{ name := "r1", content := "c1" }, { name := "r2", content := "c2" },
   { name := "r3", content := "c3" }, { name := "r4", content := "c4" }]

/-- The six-pair witness batch: replacements exist for the first four
pairs and are missing for the last two. -/
def sixPairs : List (String × String) :=
  [("o1", "r1"), ("o2", "r2"), ("o3", "r3"), ("o4", "r4"),
   ("o5", "r5"), ("o6", "r6")]

/-- An existing but empty live cache directory. -/
def emptyCache : RobloxCache :=
  { dirExists := true, root := "R", files := [] }

/-- Witness for C6: on the 4-found / 2-missing batch of six the result
reports `success = True`, four swapped assets and exactly two error
entries. -/
theorem apply_skybox_fix_classification_witness :
    freshState.ixpWriteOk = true ∧
    ((apply_skybox_fix id true sixAssets true [] (some (some sixPairs)) ""
        emptyCache "t" freshState).1.swapped_assets.length +
      (apply_skybox_fix id true sixAssets true [] (some (some sixPairs)) ""
        emptyCache "t" freshState).1.errors.length = sixPairs.length ∧
    ((apply_skybox_fix id true sixAssets true [] (some (some sixPairs)) ""
        emptyCache "t" freshState).1.success = true ↔
      0 < (apply_skybox_fix id true sixAssets true [] (some (some sixPairs))
        "" emptyCache "t" freshState).1.swapped_assets.length)) ∧
    (apply_skybox_fix id true sixAssets true [] (some (some sixPairs)) ""
      emptyCache "t" freshState).1.success = true ∧
    (apply_skybox_fix id true sixAssets true [] (some (some sixPairs)) ""
      emptyCache "t" freshState).1.swapped_assets.length = 4 ∧
    (apply_skybox_fix id true sixAssets true [] (some (some sixPairs)) ""
      emptyCache "t" freshState).1.errors.length = 2 := by
  have h := apply_skybox_fix_classification id true sixAssets [] "" sixPairs
    emptyCache "t" freshState rfl
  exact ⟨rfl, ⟨h.1, h.2⟩, by decide, by decide, by decide⟩

end CDBL
